import Mathlib

/-!
Verification of the NYC taxi analytics backend (`backend3.py`).

The development shallowly embeds the two parts of the program that carry
data semantics: the ingestion pipeline (`init_database`, including the
per-row cleaning, field derivation, outlier filtering and the
existing-store short-circuit) and the query engine (`analyze_route`,
`high_impact_routes_combined`, `high_impact_routes_by_month`).

Real-valued columns are modelled as exact rationals, SQLite result sets
as Lean lists, and the pandas dataframe transformations as per-row
functions lifted over lists (every transformation in the source is
row-independent).
-/

/-- The calendar fields pandas derives from a parsed pickup timestamp
(`dt.year`, `dt.month`, `dt.hour`, `dt.dayofweek`), together with the
ranges the datetime type guarantees. -/
structure Timestamp where
  year : Int
  month : Nat
  hour : Nat
  dayOfWeek : Nat
  month_pos : 1 ≤ month
  month_le : month ≤ 12
  hour_lt : hour < 24
  dow_lt : dayOfWeek < 7

/-- One raw FHVHV trip record as read from a parquet file.  Nullable
columns are `Option`s (`none` models a missing/NaN value; for the
request/on-scene timestamps it also models an unparseable one).  The
request and on-scene timestamps are carried as epoch seconds, which is
all the pipeline uses of them. -/
structure RawRecord where
  pickup_datetime : Option Timestamp
  dropoff_datetime : Option Timestamp
  PULocationID : Option Int
  DOLocationID : Option Int
  trip_miles : ℚ
  trip_time : ℚ
  base_passenger_fare : Option ℚ
  tolls : Option ℚ
  bcf : Option ℚ
  sales_tax : Option ℚ
  congestion_surcharge : Option ℚ
  airport_fee : Option ℚ
  request_datetime : Option ℚ
  on_scene_datetime : Option ℚ

/-- One cleaned trip fact, i.e. one row of the `fhvhv` table kept by
`columns_to_keep` (the provenance column `pickup_datetime` is retained
by the schema but never read back by any query, so it is not modelled). -/
structure TripFact where
  PULocationID : Int
  DOLocationID : Int
  pickup_hour : Nat
  day_of_week : Nat
  pickup_month : Nat
  day_type : String
  trip_miles : ℚ
  duration_minutes : ℚ
  price_per_mile : ℚ
  total_fare_amount : ℚ
  wait_time_minutes : ℚ
deriving DecidableEq

/-- `Series.fillna(0)`: a missing fare component counts as zero. -/
def fillna0 (x : Option ℚ) : ℚ := x.getD 0

/-- The six fare-component columns, in source order. -/
def fareComponents (r : RawRecord) : List (Option ℚ) :=
  [r.base_passenger_fare, r.tolls, r.bcf, r.sales_tax,
   r.congestion_surcharge, r.airport_fee]

/-- `total_fare = base_passenger_fare.fillna(0) + tolls.fillna(0) + bcf.fillna(0)
+ sales_tax.fillna(0) + congestion_surcharge.fillna(0) + airport_fee.fillna(0)`. -/
def totalFareAmount (r : RawRecord) : ℚ :=
  fillna0 r.base_passenger_fare + fillna0 r.tolls + fillna0 r.bcf +
    fillna0 r.sales_tax + fillna0 r.congestion_surcharge + fillna0 r.airport_fee

/-- `'weekend' if x in [5, 6] else 'weekday'`. -/
def dayTypeOf (d : Nat) : String :=
  if d = 5 ∨ d = 6 then "weekend" else "weekday"

/-- `Series.clip(lo, hi)` on one value: clamp into `[lo, hi]`. -/
def clipQ (lo hi x : ℚ) : ℚ :=
  if x < lo then lo else if hi < x then hi else x

/-- `wait_time.fillna(0).clip(0, 60)` applied to
`(on_scene_datetime - request_datetime).total_seconds() / 60.0`: the
minute difference clamped to `[0, 60]` when both timestamps are present
and parseable, and `0` otherwise. -/
def waitTimeMinutes (r : RawRecord) : ℚ :=
  match r.request_datetime, r.on_scene_datetime with
  | some req, some scene => clipQ 0 60 ((scene - req) / 60)
  | _, _ => 0

/-- The outlier bounds applied to a candidate row before it is written
(`df_clean = df_clean[...]` near the end of `init_database`). -/
def passesOutlierFilter (f : TripFact) : Prop :=
  0 < f.price_per_mile ∧ f.price_per_mile < 50 ∧
  0 < f.total_fare_amount ∧ f.total_fare_amount < 500 ∧
  1 < f.duration_minutes ∧ f.duration_minutes < 300 ∧
  f.trip_miles < 100

instance (f : TripFact) : Decidable (passesOutlierFilter f) := by
  unfold passesOutlierFilter; infer_instance

/-- One record through the per-row part of `init_database`'s cleaning:
drop rows with a null key column (`dropna`), require positive raw
distance and duration, keep only 2024 pickups, derive the calculated
fields, and apply the outlier filter.  `none` means the record is
dropped. -/
def cleanRecord (r : RawRecord) : Option TripFact :=
  match r.pickup_datetime, r.dropoff_datetime, r.PULocationID, r.DOLocationID with
  | some pt, some _, some pu, some dol =>
    if 0 < r.trip_miles ∧ 0 < r.trip_time ∧ pt.year = 2024 then
      let f : TripFact :=
        { PULocationID := pu
          DOLocationID := dol
          pickup_hour := pt.hour
          day_of_week := pt.dayOfWeek
          pickup_month := pt.month
          day_type := dayTypeOf pt.dayOfWeek
          trip_miles := r.trip_miles
          duration_minutes := r.trip_time / 60
          price_per_mile := totalFareAmount r / r.trip_miles
          total_fare_amount := totalFareAmount r
          wait_time_minutes := waitTimeMinutes r }
      if passesOutlierFilter f then some f else none
    else none
  | _, _, _, _ => none

/-- One input batch (one parquet file) through cleaning; the rows that
get appended to the store. -/
def processBatch (raws : List RawRecord) : List TripFact :=
  raws.filterMap cleanRecord

/-- The SQLite database file: whether the `fhvhv` table carries the
`total_fare_amount` sentinel column, and its rows. -/
structure Store where
  hasTotalFareColumn : Bool
  rows : List TripFact
deriving DecidableEq

/-- The freshly created empty `fhvhv` table (the `CREATE TABLE` schema
always includes `total_fare_amount`). -/
def emptyStore : Store := { hasTotalFareColumn := true, rows := [] }

/-- The loading half of `init_database`: with the current database state
`cur` (`none` when the file is absent or was just removed), enumerate the
2024 parquet files, append each cleaned batch, and report success iff at
least one record was added.  When no input files are found the function
returns `False` before touching the database. -/
def loadBatches (cur : Option Store) (batches : List (List RawRecord)) :
    Option Store × Bool :=
  if batches.isEmpty then (cur, false)
  else
    let base := cur.getD emptyStore
    let added := batches.map processBatch
    (some { hasTotalFareColumn := true, rows := base.rows ++ added.flatten },
      decide ((added.map List.length).sum ≠ 0))

/-- `init_database`, over an explicit database state: if the database
exists, has the `total_fare_amount` column and at least one row, return
success without reloading; if the column is missing (or the file is
unreadable) the file is removed and rebuilt; otherwise load from the
input batches. -/
def init_database (st : Option Store) (batches : List (List RawRecord)) :
    Option Store × Bool :=
  match st with
  | some s =>
    if s.hasTotalFareColumn then
      if 0 < s.rows.length then (some s, true)
      else loadBatches (some s) batches
    else loadBatches none batches
  | none => loadBatches none batches

/-- Domain validity of the derived time columns of a persisted row; it
holds for every row produced by ingestion because pandas' `dt` accessors
guarantee these ranges. -/
def factWellFormed (f : TripFact) : Prop :=
  f.pickup_hour < 24 ∧ f.day_of_week < 7 ∧
  1 ≤ f.pickup_month ∧ f.pickup_month ≤ 12

instance (f : TripFact) : Decidable (factWellFormed f) := by
  unfold factWellFormed; infer_instance

/-- The mean SQLite's `AVG` computes over a group (groups are always
nonempty where this is used; `ℚ` division by zero is `0`). -/
def avgQ (l : List ℚ) : ℚ := l.sum / l.length

/-- The `day_type` fragment of `analyze_route`'s query: an explicit
filter for `'weekday'` or `'weekend'`, and no filter for any other
value of the `day_type` request parameter. -/
def dayTypeCond (day_type : String) (f : TripFact) : Prop :=
  if day_type = "weekday" then f.day_type = "weekday"
  else if day_type = "weekend" then f.day_type = "weekend"
  else True

instance (day_type : String) (f : TripFact) : Decidable (dayTypeCond day_type f) := by
  unfold dayTypeCond; infer_instance

/-- The `WHERE` clause of `analyze_route`'s `base_query`. -/
def routeFilter (pickup dropoff : Int) (day_type : String) (f : TripFact) : Prop :=
  f.PULocationID = pickup ∧ f.DOLocationID = dropoff ∧
  dayTypeCond day_type f ∧
  f.PULocationID ≠ 265 ∧ f.DOLocationID ≠ 265 ∧
  0 < f.price_per_mile ∧ 0 < f.total_fare_amount ∧
  0 < f.duration_minutes ∧ 0 ≤ f.wait_time_minutes

instance (pickup dropoff : Int) (day_type : String) (f : TripFact) :
    Decidable (routeFilter pickup dropoff day_type f) := by
  unfold routeFilter; infer_instance

/-- The row set `analyze_route`'s aggregates range over. -/
def routeRows (store : List TripFact) (pickup dropoff : Int) (day_type : String) :
    List TripFact :=
  store.filter fun f => decide (routeFilter pickup dropoff day_type f)

/-- One row of a time-bucketed breakdown (`hourly`/`daily`/`monthly` in
the response); `label` is the `CASE ... END` name column (`none` both
for the hourly breakdown, which has no such column, and for a key the
`CASE` maps to `NULL`). -/
structure BreakdownRow where
  key : Nat
  label : Option String
  volume : Nat
  price_per_mile : ℚ
  total_fare_amount : ℚ
  avg_duration : ℚ
  avg_wait_time : ℚ
deriving DecidableEq

/-- The aggregate row of one `GROUP BY` bucket. -/
def mkBreakdownRow (keyOf : TripFact → Nat) (label : Nat → Option String)
    (rows : List TripFact) (k : Nat) : BreakdownRow :=
  let g := rows.filter fun f => decide (keyOf f = k)
  { key := k
    label := label k
    volume := g.length
    price_per_mile := avgQ (g.map (·.price_per_mile))
    total_fare_amount := avgQ (g.map (·.total_fare_amount))
    avg_duration := avgQ (g.map (·.duration_minutes))
    avg_wait_time := avgQ (g.map (·.wait_time_minutes)) }

/-- `GROUP BY keyOf ... ORDER BY keyOf` over the route's rows. -/
def breakdown (keyOf : TripFact → Nat) (label : Nat → Option String)
    (rows : List TripFact) : List BreakdownRow :=
  (((rows.map keyOf).dedup).mergeSort fun a b => decide (a ≤ b)).map
    (mkBreakdownRow keyOf label rows)

/-- `CASE day_of_week WHEN 0 THEN 'Monday' ... END`. -/
def dayNameOf : Nat → Option String
  | 0 => some "Monday"
  | 1 => some "Tuesday"
  | 2 => some "Wednesday"
  | 3 => some "Thursday"
  | 4 => some "Friday"
  | 5 => some "Saturday"
  | 6 => some "Sunday"
  | _ => none

/-- `CASE pickup_month WHEN 1 THEN 'Jan 2024' ... END`. -/
def monthNameOf : Nat → Option String
  | 1 => some "Jan 2024"
  | 2 => some "Feb 2024"
  | 3 => some "Mar 2024"
  | 4 => some "Apr 2024"
  | 5 => some "May 2024"
  | 6 => some "Jun 2024"
  | 7 => some "Jul 2024"
  | 8 => some "Aug 2024"
  | 9 => some "Sep 2024"
  | 10 => some "Oct 2024"
  | 11 => some "Nov 2024"
  | 12 => some "Dec 2024"
  | _ => none

/-- The successful `analyze_route` response body. -/
structure RouteSummary where
  total_trips : Nat
  avg_duration : ℚ
  avg_price_mile : ℚ
  avg_total_fare : ℚ
  avg_wait_time : ℚ
  hourly : List BreakdownRow
  daily : List BreakdownRow
  monthly : List BreakdownRow
deriving DecidableEq

instance : Inhabited RouteSummary :=
  ⟨{ total_trips := 0, avg_duration := 0, avg_price_mile := 0,
     avg_total_fare := 0, avg_wait_time := 0,
     hourly := [], daily := [], monthly := [] }⟩

/-- Outcome of `/api/route-analysis`: an HTTP 400 (missing parameter),
an HTTP 404 (`NoRouteDataError`), or a summary. -/
inductive RouteAnalysisResult where
  | badRequest (msg : String)
  | noData (msg : String)
  | ok (s : RouteSummary)
deriving DecidableEq

/-- The response body `analyze_route` assembles from the route's rows:
the scalar summary aggregates and the three time-bucketed breakdowns. -/
def mkRouteSummary (rows : List TripFact) : RouteSummary :=
  { total_trips := rows.length
    avg_duration := avgQ (rows.map (·.duration_minutes))
    avg_price_mile := avgQ (rows.map (·.price_per_mile))
    avg_total_fare := avgQ (rows.map (·.total_fare_amount))
    avg_wait_time := avgQ (rows.map (·.wait_time_minutes))
    hourly := breakdown (·.pickup_hour) (fun _ => none) rows
    daily := breakdown (·.day_of_week) dayNameOf rows
    monthly := breakdown (·.pickup_month) monthNameOf rows }

/-- The success path of `analyze_route` for a concrete zone pair. -/
def analyzeRouteCore (store : List TripFact) (pu dol : Int) (day_type : String) :
    RouteAnalysisResult :=
  let rows := routeRows store pu dol day_type
  if rows.isEmpty then
    .noData ("No trips found for route " ++ toString pu ++ " -> " ++ toString dol)
  else
    .ok (mkRouteSummary rows)

/-- `analyze_route` (`/api/route-analysis`).  The request parameters are
`Option Int` as produced by `request.args.get(..., type=int)`; the guard
`if not pickup_zone or not dropoff_zone` rejects a parameter that is
absent — or equal to `0`, since Python's `not 0` is `True`. -/
def analyze_route (store : List TripFact) (pickup dropoff : Option Int)
    (day_type : String) : RouteAnalysisResult :=
  match pickup, dropoff with
  | some pu, some dol =>
    if pu = 0 ∨ dol = 0 then .badRequest "Missing pickup or dropoff zone"
    else analyzeRouteCore store pu dol day_type
  | _, _ => .badRequest "Missing pickup or dropoff zone"

/-- One aggregate row of the `GROUP BY PULocationID, DOLocationID`
queries of the high-impact endpoints. -/
structure RouteAgg where
  PULocationID : Int
  DOLocationID : Int
  volume : Nat
  avg_total_fare : ℚ
  total_revenue : ℚ
  avg_duration : ℚ
  avg_distance : ℚ
deriving DecidableEq

/-- The aggregates of one `(PULocationID, DOLocationID)` bucket. -/
def mkRouteAgg (rows : List TripFact) (k : Int × Int) : RouteAgg :=
  let g := rows.filter fun f => decide (f.PULocationID = k.1 ∧ f.DOLocationID = k.2)
  { PULocationID := k.1
    DOLocationID := k.2
    volume := g.length
    avg_total_fare := avgQ (g.map (·.total_fare_amount))
    total_revenue := (g.map (·.total_fare_amount)).sum
    avg_duration := avgQ (g.map (·.duration_minutes))
    avg_distance := avgQ (g.map (·.trip_miles)) }

/-- `GROUP BY PULocationID, DOLocationID HAVING COUNT(*) >= minTrips`. -/
def routeGroups (minTrips : Nat) (rows : List TripFact) : List RouteAgg :=
  (((rows.map fun f => (f.PULocationID, f.DOLocationID)).dedup).map
      (mkRouteAgg rows)).filter fun g => decide (minTrips ≤ g.volume)

/-- `ORDER BY p DESC, q DESC` as a relation: `a` may precede `b` iff `a`
beats `b` on the primary key, or ties and is at least as large on the
secondary key. -/
def lexDesc {α β γ : Type} [LinearOrder β] [LinearOrder γ]
    (p : α → β) (q : α → γ) (a b : α) : Prop :=
  p b < p a ∨ (p a = p b ∧ q b ≤ q a)

instance {α β γ : Type} [LinearOrder β] [LinearOrder γ]
    (p : α → β) (q : α → γ) (a b : α) : Decidable (lexDesc p q a b) := by
  unfold lexDesc; infer_instance

/-- The rows of the `WHERE` clause shared by the two day/hour ranking
queries (`base_sql` of `high_impact_routes_combined`). -/
def dayHourRows (store : List TripFact) (d h : Int) : List TripFact :=
  store.filter fun f => decide ((f.day_of_week : Int) = d ∧ (f.pickup_hour : Int) = h ∧
    f.PULocationID ≠ 265 ∧ f.DOLocationID ≠ 265 ∧
    0 < f.total_fare_amount ∧ 0 < f.duration_minutes)

/-- The rows of the `WHERE` clause shared by the two monthly ranking
queries (`base_sql` of `high_impact_routes_by_month`). -/
def monthRows (store : List TripFact) (m : Int) : List TripFact :=
  store.filter fun f => decide ((f.pickup_month : Int) = m ∧
    f.PULocationID ≠ 265 ∧ f.DOLocationID ≠ 265 ∧
    0 < f.total_fare_amount ∧ 0 < f.duration_minutes)

/-- One entry of a ranking after `pack()` enriched it with
human-readable zone names through the zone-name resolver. -/
structure PackedRoute where
  pickup_zone : Int
  dropoff_zone : Int
  pickup_name : String
  dropoff_name : String
  volume : Nat
  avg_total_fare : ℚ
  total_revenue : ℚ
  avg_duration : ℚ
  avg_distance : ℚ
  route_name : String
deriving DecidableEq

/-- `zone_names.get(z, f"Zone {z}")`. -/
def zoneLabel (names : Int → Option String) (z : Int) : String :=
  (names z).getD ("Zone " ++ toString z)

/-- `pack()` of the high-impact endpoints. -/
def pack (names : Int → Option String) (r : RouteAgg) : PackedRoute :=
  { pickup_zone := r.PULocationID
    dropoff_zone := r.DOLocationID
    pickup_name := zoneLabel names r.PULocationID
    dropoff_name := zoneLabel names r.DOLocationID
    volume := r.volume
    avg_total_fare := r.avg_total_fare
    total_revenue := r.total_revenue
    avg_duration := r.avg_duration
    avg_distance := r.avg_distance
    route_name := zoneLabel names r.PULocationID ++ " → " ++ zoneLabel names r.DOLocationID }

/-- The two top-10 lists of a high-impact response (the surrounding
metadata fields `day_name`/`time_label`/`month_name` carry no data
semantics and are not modelled). -/
structure TopRoutesResponse where
  top_by_volume : List PackedRoute
  top_by_price : List PackedRoute
deriving DecidableEq

/-- `ORDER BY p DESC, q DESC LIMIT 10` over a grouped set, followed by
`pack()`: the shape of each of the four ranking queries. -/
def rankedTopTen {β γ : Type} [LinearOrder β] [LinearOrder γ]
    (p : RouteAgg → β) (q : RouteAgg → γ) (names : Int → Option String)
    (G : List RouteAgg) : List PackedRoute :=
  ((G.mergeSort fun a b => decide (lexDesc p q a b)).take 10).map (pack names)

/-- Success path of `high_impact_routes_combined`: group the day/hour
rows, keep groups of at least 5 trips, and rank them twice —
`ORDER BY volume DESC, total_revenue DESC LIMIT 10` and
`ORDER BY avg_total_fare DESC, volume DESC LIMIT 10`. -/
def dayHourTop (store : List TripFact) (names : Int → Option String)
    (d h : Int) : TopRoutesResponse :=
  let groups := routeGroups 5 (dayHourRows store d h)
  { top_by_volume := rankedTopTen RouteAgg.volume RouteAgg.total_revenue names groups
    top_by_price := rankedTopTen RouteAgg.avg_total_fare RouteAgg.volume names groups }

/-- Success path of `high_impact_routes_by_month`: group the month's
rows, keep groups of at least 20 trips, and rank them twice —
`ORDER BY volume DESC, total_revenue DESC LIMIT 10` and
`ORDER BY total_revenue DESC, volume DESC LIMIT 10`. -/
def monthTop (store : List TripFact) (names : Int → Option String)
    (m : Int) : TopRoutesResponse :=
  let groups := routeGroups 20 (monthRows store m)
  { top_by_volume := rankedTopTen RouteAgg.volume RouteAgg.total_revenue names groups
    top_by_price := rankedTopTen RouteAgg.total_revenue RouteAgg.volume names groups }

/-- `high_impact_routes_combined` (`/api/high-impact-routes`):
`if day is None or day < 0 or day > 6` then an HTTP 400 validation
error, likewise for `hour`, and only then is the database opened. -/
def high_impact_routes_combined (store : List TripFact)
    (names : Int → Option String) (day hour : Option Int) :
    Except String TopRoutesResponse :=
  match day with
  | none => .error "Invalid day. Must be 0-6 (0=Monday)"
  | some d =>
    if d < 0 ∨ 6 < d then .error "Invalid day. Must be 0-6 (0=Monday)"
    else
      match hour with
      | none => .error "Invalid hour. Must be 0-23"
      | some h =>
        if h < 0 ∨ 23 < h then .error "Invalid hour. Must be 0-23"
        else .ok (dayHourTop store names d h)

/-- `high_impact_routes_by_month` (`/api/high-impact-routes-by-month`):
`if month is None or month < 1 or month > 12` then an HTTP 400
validation error, and only then is the database opened. -/
def high_impact_routes_by_month (store : List TripFact)
    (names : Int → Option String) (month : Option Int) :
    Except String TopRoutesResponse :=
  match month with
  | none => .error "Invalid month. Must be between 1-12"
  | some m =>
    if m < 1 ∨ 12 < m then .error "Invalid month. Must be between 1-12"
    else .ok (monthTop store names m)

/-- A concrete well-formed pickup timestamp used by the witnesses. -/
def sampleTimestamp : Timestamp where
  year := 2024
  month := 3
  hour := 8
  dayOfWeek := 0
  month_pos := by norm_num
  month_le := by norm_num
  hour_lt := by norm_num
  dow_lt := by norm_num

/-- A concrete raw record that survives the whole pipeline. -/
def sampleRaw : RawRecord where
  pickup_datetime := some sampleTimestamp
  dropoff_datetime := some sampleTimestamp
  PULocationID := some 10
  DOLocationID := some 20
  trip_miles := 5
  trip_time := 600
  base_passenger_fare := some 20
  tolls := none
  bcf := none
  sales_tax := some 2
  congestion_surcharge := none
  airport_fee := none
  request_datetime := some 0
  on_scene_datetime := some 300

/-- The cleaned fact `sampleRaw` turns into. -/
def sampleFact : TripFact where
  PULocationID := 10
  DOLocationID := 20
  pickup_hour := 8
  day_of_week := 0
  pickup_month := 3
  day_type := "weekday"
  trip_miles := 5
  duration_minutes := 10
  price_per_mile := 22/5
  total_fare_amount := 22
  wait_time_minutes := 5

/-- `sampleRaw` cleans to exactly `sampleFact`. -/
theorem cleanRecord_sampleRaw : cleanRecord sampleRaw = some sampleFact := by
  norm_num [cleanRecord, sampleRaw, sampleFact, sampleTimestamp, totalFareAmount,
    fillna0, waitTimeMinutes, clipQ, passesOutlierFilter, dayTypeOf]

theorem clipQ_nonneg (hi x : ℚ) (h : 0 ≤ hi) : 0 ≤ clipQ 0 hi x := by
  unfold clipQ
  split_ifs with h1 h2
  · exact le_refl 0
  · exact h
  · exact le_of_not_lt h1

theorem clipQ_le (hi x : ℚ) (h : 0 ≤ hi) : clipQ 0 hi x ≤ hi := by
  unfold clipQ
  split_ifs with h1 h2
  · exact h
  · exact le_refl hi
  · exact le_of_not_lt h2

theorem waitTimeMinutes_nonneg (r : RawRecord) : 0 ≤ waitTimeMinutes r := by
  unfold waitTimeMinutes
  rcases r.request_datetime with _ | req <;> rcases r.on_scene_datetime with _ | scene
  · exact le_refl 0
  · exact le_refl 0
  · exact le_refl 0
  · exact clipQ_nonneg 60 _ (by norm_num)

theorem waitTimeMinutes_le_60 (r : RawRecord) : waitTimeMinutes r ≤ 60 := by
  unfold waitTimeMinutes
  rcases r.request_datetime with _ | req <;> rcases r.on_scene_datetime with _ | scene
  · norm_num
  · norm_num
  · norm_num
  · exact clipQ_le 60 _ (by norm_num)

/-- Inversion of the per-record cleaning: a record that survives had
positive raw distance and duration, and the persisted fact satisfies the
outlier bounds, carries the derived total fare and wait time, and has
in-range time columns. -/
theorem of_cleanRecord_some {r : RawRecord} {f : TripFact}
    (h : cleanRecord r = some f) :
    0 < r.trip_miles ∧ 0 < r.trip_time ∧ passesOutlierFilter f ∧
    f.total_fare_amount = totalFareAmount r ∧
    f.wait_time_minutes = waitTimeMinutes r ∧
    factWellFormed f := by
  rcases hpd : r.pickup_datetime with _ | pt <;>
    rcases hdd : r.dropoff_datetime with _ | dts <;>
    rcases hpu : r.PULocationID with _ | pu <;>
    rcases hdol : r.DOLocationID with _ | dol <;>
    simp only [cleanRecord, hpd, hdd, hpu, hdol] at h <;>
    try exact Option.noConfusion h
  split at h
  · split at h
    · rw [Option.some.injEq] at h
      subst h
      rename_i h1 h2
      exact ⟨h1.1, h1.2.1, h2, rfl, rfl,
        pt.hour_lt, pt.dow_lt, pt.month_pos, pt.month_le⟩
    · simp at h
  · simp at h

theorem mem_processBatch_inv {raws : List RawRecord} {f : TripFact}
    (h : f ∈ processBatch raws) : ∃ r ∈ raws, cleanRecord r = some f := by
  simpa [processBatch] using List.mem_filterMap.mp h

theorem mem_processBatch_single {r : RawRecord} {f : TripFact}
    (h : cleanRecord r = some f) : f ∈ processBatch [r] := by
  simp [processBatch, h]

/-- The store-level invariant of ingested rows: every row appended by
`processBatch` passes the outlier filter, has a wait time in `[0, 60]`,
and has in-range derived time columns. -/
theorem processBatch_invariant {raws : List RawRecord} {f : TripFact}
    (h : f ∈ processBatch raws) :
    passesOutlierFilter f ∧ 0 ≤ f.wait_time_minutes ∧
    f.wait_time_minutes ≤ 60 ∧ factWellFormed f := by
  obtain ⟨r, _, hcr⟩ := mem_processBatch_inv h
  obtain ⟨_, _, hout, _, hwait, hwf⟩ := of_cleanRecord_some hcr
  exact ⟨hout, hwait ▸ waitTimeMinutes_nonneg r, hwait ▸ waitTimeMinutes_le_60 r, hwf⟩

/-- A store that already carries the sentinel column and one row. -/
def sampleStore : Store := { hasTotalFareColumn := true, rows := [sampleFact] }

/-- The request-parameter test `v is None or v < lo or v > hi` of the
high-impact endpoints. -/
def invalidParam (lo hi : Int) : Option Int → Prop
  | none => True
  | some v => v < lo ∨ hi < v

instance (lo hi : Int) (v : Option Int) : Decidable (invalidParam lo hi v) :=
  match v with
  | none => .isTrue trivial
  | some x => inferInstanceAs (Decidable (x < lo ∨ hi < x))

/-- C1: Every cleaned trip fact persisted to the store comes from a raw
record with `trip_distance > 0` and raw duration `> 0`, and satisfies
the four post-derivation outlier bounds (`0 < price_per_distance < 50`,
`0 < total_fare < 500`, `1 < duration_minutes < 300`,
`trip_distance < 100`); a record failing any of these is dropped and
never persisted. -/
theorem claim_C1_persisted_facts_satisfy_invariants (raws : List RawRecord) :
    (∀ f ∈ processBatch raws,
      (∃ r ∈ raws, cleanRecord r = some f ∧ 0 < r.trip_miles ∧ 0 < r.trip_time) ∧
      passesOutlierFilter f) ∧
    (∀ (r : RawRecord) (f : TripFact), cleanRecord r = some f →
      0 < r.trip_miles ∧ 0 < r.trip_time ∧ passesOutlierFilter f) := by
  constructor
  · intro f hf
    obtain ⟨r, hr, hcr⟩ := mem_processBatch_inv hf
    obtain ⟨h1, h2, h3, -, -, -⟩ := of_cleanRecord_some hcr
    exact ⟨⟨r, hr, hcr, h1, h2⟩, h3⟩
  · intro r f hcr
    obtain ⟨h1, h2, h3, -, -, -⟩ := of_cleanRecord_some hcr
    exact ⟨h1, h2, h3⟩

theorem claim_C1_witness :
    ((∃ r ∈ [sampleRaw], cleanRecord r = some sampleFact ∧
        0 < r.trip_miles ∧ 0 < r.trip_time) ∧ passesOutlierFilter sampleFact) ∧
    (0 < sampleRaw.trip_miles ∧ 0 < sampleRaw.trip_time ∧
      passesOutlierFilter sampleFact) :=
  ⟨(claim_C1_persisted_facts_satisfy_invariants [sampleRaw]).1 sampleFact
      (mem_processBatch_single cleanRecord_sampleRaw),
   (claim_C1_persisted_facts_satisfy_invariants [sampleRaw]).2 sampleRaw sampleFact
      cleanRecord_sampleRaw⟩

/-- C3: The derived `total_fare` equals the sum of the fare-component
fields with each missing component treated as zero — equivalently, the
sum of just the present components — and it is the value persisted on
the cleaned fact. -/
theorem claim_C3_total_fare_is_component_sum (r : RawRecord) :
    totalFareAmount r = ((fareComponents r).filterMap id).sum ∧
    ∀ f : TripFact, cleanRecord r = some f →
      f.total_fare_amount = totalFareAmount r := by
  constructor
  · rcases r with ⟨pd, dd, pu, dol, tm, tt, b, t, bc, s, c, a, req, scene⟩
    cases b <;> cases t <;> cases bc <;> cases s <;> cases c <;> cases a <;>
      simp [totalFareAmount, fareComponents, fillna0] <;> ring
  · intro f hcr
    exact (of_cleanRecord_some hcr).2.2.2.1

theorem claim_C3_witness :
    totalFareAmount sampleRaw = ((fareComponents sampleRaw).filterMap id).sum ∧
    sampleFact.total_fare_amount = totalFareAmount sampleRaw :=
  ⟨(claim_C3_total_fare_is_component_sum sampleRaw).1,
   (claim_C3_total_fare_is_component_sum sampleRaw).2 sampleFact cleanRecord_sampleRaw⟩

/-- C9: `wait_minutes` equals the request→on-scene minute difference
clamped to `[0, 60]` when both timestamps are present and parseable and
`0` otherwise (parse failure degrades to the absent case), so it is
never negative and never exceeds 60; it is the value persisted on the
cleaned fact. -/
theorem claim_C9_wait_minutes_clamped (r : RawRecord) :
    (∀ req scene, r.request_datetime = some req → r.on_scene_datetime = some scene →
      waitTimeMinutes r = clipQ 0 60 ((scene - req) / 60)) ∧
    ((r.request_datetime = none ∨ r.on_scene_datetime = none) →
      waitTimeMinutes r = 0) ∧
    0 ≤ waitTimeMinutes r ∧ waitTimeMinutes r ≤ 60 ∧
    (∀ f : TripFact, cleanRecord r = some f →
      f.wait_time_minutes = waitTimeMinutes r) := by
  refine ⟨?_, ?_, waitTimeMinutes_nonneg r, waitTimeMinutes_le_60 r, ?_⟩
  · intro req scene h1 h2
    simp [waitTimeMinutes, h1, h2]
  · intro h
    rcases h with h | h <;> rcases hr : r.request_datetime with _ | req <;>
      simp [waitTimeMinutes, h, hr]
  · intro f hcr
    exact (of_cleanRecord_some hcr).2.2.2.2.1

theorem claim_C9_witness :
    waitTimeMinutes sampleRaw = clipQ 0 60 ((300 - 0) / 60) ∧
    0 ≤ waitTimeMinutes sampleRaw ∧ waitTimeMinutes sampleRaw ≤ 60 ∧
    sampleFact.wait_time_minutes = waitTimeMinutes sampleRaw :=
  ⟨(claim_C9_wait_minutes_clamped sampleRaw).1 0 300 rfl rfl,
   (claim_C9_wait_minutes_clamped sampleRaw).2.2.1,
   (claim_C9_wait_minutes_clamped sampleRaw).2.2.2.1,
   (claim_C9_wait_minutes_clamped sampleRaw).2.2.2.2 sampleFact cleanRecord_sampleRaw⟩

/-- C4: Running ingestion against an existing, schema-compatible,
nonempty store is a no-op: `init_database` reports success, the store
state is returned unchanged, so its row count is unchanged and no rows
are added. -/
theorem claim_C4_ingestion_idempotent (s : Store) (batches : List (List RawRecord))
    (hcol : s.hasTotalFareColumn = true) (hrows : 0 < s.rows.length) :
    init_database (some s) batches = (some s, true) ∧
    (init_database (some s) batches).1.elim 0 (fun st => st.rows.length) =
      s.rows.length ∧
    (init_database (some s) batches).1.elim [] Store.rows = s.rows := by
  have h : init_database (some s) batches = (some s, true) := by
    simp [init_database, hcol, hrows]
  exact ⟨h, by rw [h]; rfl, by rw [h]; rfl⟩

theorem claim_C4_witness :
    init_database (some sampleStore) [[sampleRaw], []] = (some sampleStore, true) ∧
    (init_database (some sampleStore) [[sampleRaw], []]).1.elim 0
      (fun st => st.rows.length) = sampleStore.rows.length ∧
    (init_database (some sampleStore) [[sampleRaw], []]).1.elim [] Store.rows =
      sampleStore.rows :=
  claim_C4_ingestion_idempotent sampleStore [[sampleRaw], []] rfl (by simp [sampleStore])

/-- C7: A route query whose matching trip set is empty reports the
no-data error (HTTP 404), never a success result. -/
theorem claim_C7_empty_route_reports_no_data (store : List TripFact)
    (pu dol : Int) (day_type : String) (hpu : pu ≠ 0) (hdol : dol ≠ 0)
    (hempty : routeRows store pu dol day_type = []) :
    analyze_route store (some pu) (some dol) day_type =
      .noData ("No trips found for route " ++ toString pu ++ " -> " ++ toString dol) ∧
    ∀ s : RouteSummary,
      analyze_route store (some pu) (some dol) day_type ≠ .ok s := by
  have h : analyze_route store (some pu) (some dol) day_type =
      .noData ("No trips found for route " ++ toString pu ++ " -> " ++ toString dol) := by
    simp [analyze_route, hpu, hdol, analyzeRouteCore, hempty]
  refine ⟨h, fun s hs => ?_⟩
  rw [h] at hs
  exact RouteAnalysisResult.noConfusion hs

theorem claim_C7_witness :
    analyze_route [] (some 10) (some 20) "all" =
      .noData ("No trips found for route " ++ toString (10 : Int) ++ " -> " ++
        toString (20 : Int)) ∧
    ∀ s : RouteSummary, analyze_route [] (some 10) (some 20) "all" ≠ .ok s :=
  claim_C7_empty_route_reports_no_data [] 10 20 "all" (by norm_num) (by norm_num) rfl

/-- C10: A pickup or dropoff zone id of `0` behaves exactly like an
absent parameter: the call answers the missing-zone bad request without
consulting the store, because the guard tests integer truthiness. -/
theorem claim_C10_zone_zero_treated_as_missing :
    ∀ (store : List TripFact) (p q : Option Int) (day_type : String),
      (analyze_route store (some 0) q day_type =
        analyze_route store none q day_type ∧
       analyze_route store (some 0) q day_type =
        .badRequest "Missing pickup or dropoff zone") ∧
      (analyze_route store p (some 0) day_type =
        analyze_route store p none day_type ∧
       analyze_route store p (some 0) day_type =
        .badRequest "Missing pickup or dropoff zone") := by
  intro store p q day_type
  refine ⟨⟨?_, ?_⟩, ⟨?_, ?_⟩⟩ <;> rcases q with _ | qv <;> rcases p with _ | pv <;>
    simp [analyze_route]

/-- C8: An out-of-domain (or absent) day, hour, or month parameter makes
the ranking endpoints answer the matching validation error, with a
result that does not depend on the store or the zone-name resolver. -/
theorem claim_C8_invalid_params_validation_error (store store2 : List TripFact)
    (names names2 : Int → Option String) (day hour month : Option Int) :
    (invalidParam 0 6 day →
      high_impact_routes_combined store names day hour =
        .error "Invalid day. Must be 0-6 (0=Monday)" ∧
      high_impact_routes_combined store names day hour =
        high_impact_routes_combined store2 names2 day hour) ∧
    (¬ invalidParam 0 6 day → invalidParam 0 23 hour →
      high_impact_routes_combined store names day hour =
        .error "Invalid hour. Must be 0-23" ∧
      high_impact_routes_combined store names day hour =
        high_impact_routes_combined store2 names2 day hour) ∧
    (invalidParam 1 12 month →
      high_impact_routes_by_month store names month =
        .error "Invalid month. Must be between 1-12" ∧
      high_impact_routes_by_month store names month =
        high_impact_routes_by_month store2 names2 month) := by
  refine ⟨?_, ?_, ?_⟩
  · intro hday
    rcases day with _ | d
    · simp [high_impact_routes_combined]
    · rcases hday with h | h <;>
        simp [high_impact_routes_combined, h, invalidParam]
  · intro hday hhour
    rcases day with _ | d
    · exact absurd trivial hday
    · rcases hour with _ | hv
      · have hd : ¬ (d < 0 ∨ 6 < d) := hday
        simp [high_impact_routes_combined, hd]
      · have hd : ¬ (d < 0 ∨ 6 < d) := hday
        rcases hhour with h | h <;>
          simp [high_impact_routes_combined, hd, h, invalidParam]
  · intro hmonth
    rcases month with _ | m
    · simp [high_impact_routes_by_month]
    · rcases hmonth with h | h <;>
        simp [high_impact_routes_by_month, h, invalidParam]

theorem claim_C8_witness :
    (high_impact_routes_combined [] (fun _ => none) (some 7) (some 0) =
      .error "Invalid day. Must be 0-6 (0=Monday)" ∧
     high_impact_routes_combined [] (fun _ => none) (some 7) (some 0) =
      high_impact_routes_combined [sampleFact] (fun _ => some "Zone") (some 7) (some 0)) ∧
    (high_impact_routes_combined [] (fun _ => none) (some 3) (some 24) =
      .error "Invalid hour. Must be 0-23" ∧
     high_impact_routes_combined [] (fun _ => none) (some 3) (some 24) =
      high_impact_routes_combined [sampleFact] (fun _ => some "Zone") (some 3) (some 24)) ∧
    (high_impact_routes_by_month [] (fun _ => none) (some 13) =
      .error "Invalid month. Must be between 1-12" ∧
     high_impact_routes_by_month [] (fun _ => none) (some 13) =
      high_impact_routes_by_month [sampleFact] (fun _ => some "Zone") (some 13)) :=
  ⟨(claim_C8_invalid_params_validation_error [] [sampleFact] (fun _ => none)
      (fun _ => some "Zone") (some 7) (some 0) none).1 (by norm_num [invalidParam]),
   (claim_C8_invalid_params_validation_error [] [sampleFact] (fun _ => none)
      (fun _ => some "Zone") (some 3) (some 24) none).2.1
      (by norm_num [invalidParam]) (by norm_num [invalidParam]),
   (claim_C8_invalid_params_validation_error [] [sampleFact] (fun _ => none)
      (fun _ => some "Zone") none none (some 13)).2.2 (by norm_num [invalidParam])⟩

/-- C2: Every row any of the three queries aggregates over an
ingestion-built store avoids the reserved unknown-location zone id 265
on both ends and satisfies `price_per_distance > 0`, `total_fare > 0`,
`duration_minutes > 0`, `wait_minutes ≥ 0` (for `analyze_route` all are
explicit filters; the ranking queries filter only the zone ids, the
fare, and the duration, and the remaining two bounds come from the
ingestion invariants). -/
theorem claim_C2_queries_apply_common_filters (raws : List RawRecord)
    (pu dol : Int) (day_type : String) (d h m : Int) (f : TripFact)
    (hf : f ∈ routeRows (processBatch raws) pu dol day_type ∨
          f ∈ dayHourRows (processBatch raws) d h ∨
          f ∈ monthRows (processBatch raws) m) :
    f.PULocationID ≠ 265 ∧ f.DOLocationID ≠ 265 ∧
    0 < f.price_per_mile ∧ 0 < f.total_fare_amount ∧
    0 < f.duration_minutes ∧ 0 ≤ f.wait_time_minutes := by
  rcases hf with hf | hf | hf
  · have hmem := List.mem_filter.mp hf
    have hp := of_decide_eq_true hmem.2
    unfold routeFilter at hp
    obtain ⟨-, -, -, h4, h5, h6, h7, h8, h9⟩ := hp
    exact ⟨h4, h5, h6, h7, h8, h9⟩
  · have hmem := List.mem_filter.mp hf
    have hp := of_decide_eq_true hmem.2
    obtain ⟨-, -, h3, h4, h5, h6⟩ := hp
    obtain ⟨hout, hw0, -, -⟩ := processBatch_invariant hmem.1
    exact ⟨h3, h4, hout.1, h5, h6, hw0⟩
  · have hmem := List.mem_filter.mp hf
    have hp := of_decide_eq_true hmem.2
    obtain ⟨-, h2, h3, h4, h5⟩ := hp
    obtain ⟨hout, hw0, -, -⟩ := processBatch_invariant hmem.1
    exact ⟨h2, h3, hout.1, h4, h5, hw0⟩

theorem claim_C2_witness :
    sampleFact.PULocationID ≠ 265 ∧ sampleFact.DOLocationID ≠ 265 ∧
    0 < sampleFact.price_per_mile ∧ 0 < sampleFact.total_fare_amount ∧
    0 < sampleFact.duration_minutes ∧ 0 ≤ sampleFact.wait_time_minutes :=
  claim_C2_queries_apply_common_filters [sampleRaw] 10 20 "all" 0 8 3 sampleFact
    (Or.inr (Or.inl (List.mem_filter.mpr
      ⟨mem_processBatch_single cleanRecord_sampleRaw, by norm_num [sampleFact]⟩)))

theorem lexDesc_trans {α β γ : Type} [LinearOrder β] [LinearOrder γ]
    (p : α → β) (q : α → γ) {a b c : α}
    (h1 : lexDesc p q a b) (h2 : lexDesc p q b c) : lexDesc p q a c := by
  rcases h1 with h1 | ⟨e1, h1⟩ <;> rcases h2 with h2 | ⟨e2, h2⟩
  · exact Or.inl (h2.trans h1)
  · exact Or.inl (e2 ▸ h1)
  · exact Or.inl (lt_of_lt_of_eq h2 e1.symm)
  · exact Or.inr ⟨e1.trans e2, h2.trans h1⟩

theorem lexDesc_total {α β γ : Type} [LinearOrder β] [LinearOrder γ]
    (p : α → β) (q : α → γ) (a b : α) : lexDesc p q a b ∨ lexDesc p q b a := by
  rcases lt_trichotomy (p a) (p b) with h | h | h
  · exact Or.inr (Or.inl h)
  · rcases le_total (q a) (q b) with hq | hq
    · exact Or.inr (Or.inr ⟨h.symm, hq⟩)
    · exact Or.inl (Or.inr ⟨h, hq⟩)
  · exact Or.inl (Or.inl h)

theorem lexDesc_trans_bool {α β γ : Type} [LinearOrder β] [LinearOrder γ]
    (p : α → β) (q : α → γ) : ∀ a b c : α,
    decide (lexDesc p q a b) = true → decide (lexDesc p q b c) = true →
    decide (lexDesc p q a c) = true := fun _ _ _ h1 h2 =>
  decide_eq_true (lexDesc_trans p q (of_decide_eq_true h1) (of_decide_eq_true h2))

theorem lexDesc_total_bool {α β γ : Type} [LinearOrder β] [LinearOrder γ]
    (p : α → β) (q : α → γ) : ∀ a b : α,
    (decide (lexDesc p q a b) || decide (lexDesc p q b a)) = true := fun a b => by
  rcases lexDesc_total p q a b with h | h <;> simp [h]

/-- The three guarantees of one ranking query: at most ten rows, every
row's group meets the `HAVING` threshold, and the rows are sorted by the
primary key descending with the secondary key descending on ties. -/
theorem rankedTopTen_spec {β γ : Type} [LinearOrder β] [LinearOrder γ]
    (p : RouteAgg → β) (q : RouteAgg → γ)
    (p2 : PackedRoute → β) (q2 : PackedRoute → γ)
    (hp : ∀ (names : Int → Option String) (g : RouteAgg), p2 (pack names g) = p g)
    (hq : ∀ (names : Int → Option String) (g : RouteAgg), q2 (pack names g) = q g)
    (names : Int → Option String) (minTrips : Nat) (rows : List TripFact) :
    (rankedTopTen p q names (routeGroups minTrips rows)).length ≤ 10 ∧
    (∀ r ∈ rankedTopTen p q names (routeGroups minTrips rows), minTrips ≤ r.volume) ∧
    (rankedTopTen p q names (routeGroups minTrips rows)).Pairwise (lexDesc p2 q2) := by
  unfold rankedTopTen
  refine ⟨?_, ?_, ?_⟩
  · rw [List.length_map, List.length_take]
    exact min_le_left _ _
  · intro r hr
    obtain ⟨g, hg, rfl⟩ := List.mem_map.mp hr
    have hg2 : g ∈ routeGroups minTrips rows :=
      (List.mergeSort_perm _ _).mem_iff.mp (List.mem_of_mem_take hg)
    unfold routeGroups at hg2
    have h3 := (List.mem_filter.mp hg2).2
    exact of_decide_eq_true h3
  · rw [List.pairwise_map]
    have hs := List.sorted_mergeSort (lexDesc_trans_bool p q)
      (lexDesc_total_bool p q) (routeGroups minTrips rows)
    have ht := List.Pairwise.sublist (List.take_sublist 10 _) hs
    refine ht.imp ?_
    intro a b hab
    have hab2 := of_decide_eq_true hab
    unfold lexDesc at hab2 ⊢
    rw [hp names a, hp names b, hq names a, hq names b]
    exact hab2

/-- C5: For every valid day/hour and month, the ranking endpoints
succeed; each of the four rankings has at most 10 rows; every returned
group meets its minimum trip count (5 per day/hour, 20 per month); and
each ranking is sorted by its documented primary key descending with its
documented secondary key descending as tie-break (day/hour: volume then
revenue, and average fare then volume; month: volume then revenue, and
revenue then volume). -/
theorem claim_C5_top_routes_shape (store : List TripFact)
    (names : Int → Option String) (d h m : Int)
    (hd : 0 ≤ d ∧ d ≤ 6) (hh : 0 ≤ h ∧ h ≤ 23) (hm : 1 ≤ m ∧ m ≤ 12) :
    high_impact_routes_combined store names (some d) (some h) =
      .ok (dayHourTop store names d h) ∧
    high_impact_routes_by_month store names (some m) =
      .ok (monthTop store names m) ∧
    (dayHourTop store names d h).top_by_volume.length ≤ 10 ∧
    (dayHourTop store names d h).top_by_price.length ≤ 10 ∧
    (monthTop store names m).top_by_volume.length ≤ 10 ∧
    (monthTop store names m).top_by_price.length ≤ 10 ∧
    (∀ r ∈ (dayHourTop store names d h).top_by_volume, 5 ≤ r.volume) ∧
    (∀ r ∈ (dayHourTop store names d h).top_by_price, 5 ≤ r.volume) ∧
    (∀ r ∈ (monthTop store names m).top_by_volume, 20 ≤ r.volume) ∧
    (∀ r ∈ (monthTop store names m).top_by_price, 20 ≤ r.volume) ∧
    (dayHourTop store names d h).top_by_volume.Pairwise
      (lexDesc PackedRoute.volume PackedRoute.total_revenue) ∧
    (dayHourTop store names d h).top_by_price.Pairwise
      (lexDesc PackedRoute.avg_total_fare PackedRoute.volume) ∧
    (monthTop store names m).top_by_volume.Pairwise
      (lexDesc PackedRoute.volume PackedRoute.total_revenue) ∧
    (monthTop store names m).top_by_price.Pairwise
      (lexDesc PackedRoute.total_revenue PackedRoute.volume) := by
  have e1 : high_impact_routes_combined store names (some d) (some h) =
      .ok (dayHourTop store names d h) := by
    simp only [high_impact_routes_combined]
    rw [if_neg (by omega), if_neg (by omega)]
  have e2 : high_impact_routes_by_month store names (some m) =
      .ok (monthTop store names m) := by
    simp only [high_impact_routes_by_month]
    rw [if_neg (by omega)]
  have A := rankedTopTen_spec RouteAgg.volume RouteAgg.total_revenue
    PackedRoute.volume PackedRoute.total_revenue (fun _ _ => rfl) (fun _ _ => rfl)
    names 5 (dayHourRows store d h)
  have B := rankedTopTen_spec RouteAgg.avg_total_fare RouteAgg.volume
    PackedRoute.avg_total_fare PackedRoute.volume (fun _ _ => rfl) (fun _ _ => rfl)
    names 5 (dayHourRows store d h)
  have C := rankedTopTen_spec RouteAgg.volume RouteAgg.total_revenue
    PackedRoute.volume PackedRoute.total_revenue (fun _ _ => rfl) (fun _ _ => rfl)
    names 20 (monthRows store m)
  have D := rankedTopTen_spec RouteAgg.total_revenue RouteAgg.volume
    PackedRoute.total_revenue PackedRoute.volume (fun _ _ => rfl) (fun _ _ => rfl)
    names 20 (monthRows store m)
  exact ⟨e1, e2, A.1, B.1, C.1, D.1, A.2.1, B.2.1, C.2.1, D.2.1,
    A.2.2, B.2.2, C.2.2, D.2.2⟩

theorem claim_C5_witness :
    high_impact_routes_combined [sampleFact] (fun _ => none) (some 0) (some 8) =
      .ok (dayHourTop [sampleFact] (fun _ => none) 0 8) ∧
    high_impact_routes_by_month [sampleFact] (fun _ => none) (some 3) =
      .ok (monthTop [sampleFact] (fun _ => none) 3) ∧
    (dayHourTop [sampleFact] (fun _ => none) 0 8).top_by_volume.length ≤ 10 ∧
    (dayHourTop [sampleFact] (fun _ => none) 0 8).top_by_price.length ≤ 10 ∧
    (monthTop [sampleFact] (fun _ => none) 3).top_by_volume.length ≤ 10 ∧
    (monthTop [sampleFact] (fun _ => none) 3).top_by_price.length ≤ 10 ∧
    (∀ r ∈ (dayHourTop [sampleFact] (fun _ => none) 0 8).top_by_volume, 5 ≤ r.volume) ∧
    (∀ r ∈ (dayHourTop [sampleFact] (fun _ => none) 0 8).top_by_price, 5 ≤ r.volume) ∧
    (∀ r ∈ (monthTop [sampleFact] (fun _ => none) 3).top_by_volume, 20 ≤ r.volume) ∧
    (∀ r ∈ (monthTop [sampleFact] (fun _ => none) 3).top_by_price, 20 ≤ r.volume) ∧
    (dayHourTop [sampleFact] (fun _ => none) 0 8).top_by_volume.Pairwise
      (lexDesc PackedRoute.volume PackedRoute.total_revenue) ∧
    (dayHourTop [sampleFact] (fun _ => none) 0 8).top_by_price.Pairwise
      (lexDesc PackedRoute.avg_total_fare PackedRoute.volume) ∧
    (monthTop [sampleFact] (fun _ => none) 3).top_by_volume.Pairwise
      (lexDesc PackedRoute.volume PackedRoute.total_revenue) ∧
    (monthTop [sampleFact] (fun _ => none) 3).top_by_price.Pairwise
      (lexDesc PackedRoute.total_revenue PackedRoute.volume) :=
  claim_C5_top_routes_shape [sampleFact] (fun _ => none) 0 8 3
    (by norm_num) (by norm_num) (by norm_num)

/-- Partition counting: when `K` lists every key of `l` exactly once,
the per-key filter lengths sum to the length of `l`. -/
theorem sum_filter_length {α β : Type} [DecidableEq β] (keyOf : α → β) :
    ∀ (K : List β) (l : List α), K.Nodup → (∀ a ∈ l, keyOf a ∈ K) →
    (K.map fun k => (l.filter fun a => decide (keyOf a = k)).length).sum =
      l.length := by
  intro K
  induction K with
  | nil =>
    intro l _ hcov
    cases l with
    | nil => simp
    | cons a t => exact absurd (hcov a (List.mem_cons_self a t)) (List.not_mem_nil _)
  | cons k K ih =>
    intro l hnd hcov
    have hsplit := (List.filter_append_perm (fun a => decide (keyOf a = k)) l).length_eq
    rw [List.length_append] at hsplit
    have hknotmem : k ∉ K := (List.nodup_cons.mp hnd).1
    have hmap : K.map (fun x => (l.filter fun a => decide (keyOf a = x)).length) =
        K.map (fun x =>
          ((l.filter fun a => !decide (keyOf a = k)).filter
            fun a => decide (keyOf a = x)).length) := by
      apply List.map_congr_left
      intro x hx
      rw [List.filter_filter]
      congr 1
      apply List.filter_congr
      intro a _
      by_cases hax : keyOf a = x
      · have hxk : ¬ x = k := fun he => hknotmem (he ▸ hx)
        simp [hax, hxk]
      · simp [hax]
    have hcov2 : ∀ a ∈ l.filter fun a => !decide (keyOf a = k), keyOf a ∈ K := by
      intro a ha
      have hmem := List.mem_filter.mp ha
      have hne : ¬ keyOf a = k := by
        have := hmem.2
        simp at this
        exact this
      rcases hcov a hmem.1 with hmemK
      rcases List.mem_cons.mp hmemK with he | ht
      · exact absurd he hne
      · exact ht
    have hnd2 : K.Nodup := (List.nodup_cons.mp hnd).2
    calc ((k :: K).map fun x => (l.filter fun a => decide (keyOf a = x)).length).sum
        = (l.filter fun a => decide (keyOf a = k)).length +
          (K.map fun x => (l.filter fun a => decide (keyOf a = x)).length).sum := by
          simp
      _ = (l.filter fun a => decide (keyOf a = k)).length +
          ((l.filter fun a => !decide (keyOf a = k)).length) := by
          rw [hmap, ih _ hnd2 hcov2]
      _ = l.length := hsplit

theorem nat_le_trans_bool : ∀ a b c : Nat,
    decide (a ≤ b) = true → decide (b ≤ c) = true → decide (a ≤ c) = true :=
  fun _ _ _ h1 h2 =>
    decide_eq_true (Nat.le_trans (of_decide_eq_true h1) (of_decide_eq_true h2))

theorem nat_le_total_bool : ∀ a b : Nat,
    (decide (a ≤ b) || decide (b ≤ a)) = true := fun a b => by
  rcases Nat.le_total a b with h | h <;> simp [h]

theorem breakdown_map_key (keyOf : TripFact → Nat) (label : Nat → Option String)
    (rows : List TripFact) :
    (breakdown keyOf label rows).map BreakdownRow.key =
      ((rows.map keyOf).dedup).mergeSort fun a b => decide (a ≤ b) := by
  unfold breakdown
  rw [List.map_map]
  have hcomp : BreakdownRow.key ∘ mkBreakdownRow keyOf label rows = id := rfl
  rw [hcomp, List.map_id]

theorem breakdown_map_volume (keyOf : TripFact → Nat) (label : Nat → Option String)
    (rows : List TripFact) :
    (breakdown keyOf label rows).map BreakdownRow.volume =
      (((rows.map keyOf).dedup).mergeSort fun a b => decide (a ≤ b)).map
        fun k => (rows.filter fun a => decide (keyOf a = k)).length := by
  unfold breakdown
  rw [List.map_map]
  rfl

theorem breakdown_keys_nodup (keyOf : TripFact → Nat) (label : Nat → Option String)
    (rows : List TripFact) :
    ((breakdown keyOf label rows).map BreakdownRow.key).Nodup := by
  rw [breakdown_map_key]
  exact ((List.mergeSort_perm _ _).nodup_iff).mpr (List.nodup_dedup _)

theorem breakdown_keys_sorted (keyOf : TripFact → Nat) (label : Nat → Option String)
    (rows : List TripFact) :
    ((breakdown keyOf label rows).map BreakdownRow.key).Sorted (· ≤ ·) := by
  rw [breakdown_map_key]
  have hs := List.sorted_mergeSort nat_le_trans_bool nat_le_total_bool
    ((rows.map keyOf).dedup)
  exact hs.imp fun hab => of_decide_eq_true hab

theorem breakdown_key_mem {keyOf : TripFact → Nat} {label : Nat → Option String}
    {rows : List TripFact} {row : BreakdownRow}
    (h : row ∈ breakdown keyOf label rows) : ∃ f ∈ rows, keyOf f = row.key := by
  unfold breakdown at h
  obtain ⟨k, hk, rfl⟩ := List.mem_map.mp h
  have hk2 : k ∈ (rows.map keyOf).dedup := (List.mergeSort_perm _ _).mem_iff.mp hk
  obtain ⟨f, hf, hkey⟩ := List.mem_map.mp (List.mem_dedup.mp hk2)
  exact ⟨f, hf, hkey⟩

theorem breakdown_volume_sum (keyOf : TripFact → Nat) (label : Nat → Option String)
    (rows : List TripFact) :
    ((breakdown keyOf label rows).map BreakdownRow.volume).sum = rows.length := by
  rw [breakdown_map_volume]
  apply sum_filter_length keyOf _ rows
  · exact ((List.mergeSort_perm _ _).nodup_iff).mpr (List.nodup_dedup _)
  · intro a ha
    exact (List.mergeSort_perm _ _).mem_iff.mpr
      (List.mem_dedup.mpr (List.mem_map_of_mem keyOf ha))

theorem analyzeRouteCore_ok {store : List TripFact} {pu dol : Int}
    {day_type : String} {s : RouteSummary}
    (h : analyzeRouteCore store pu dol day_type = .ok s) :
    s = mkRouteSummary (routeRows store pu dol day_type) := by
  simp only [analyzeRouteCore] at h
  split at h
  · exact absurd h (by simp)
  · rw [RouteAnalysisResult.ok.injEq] at h
    exact h.symm

theorem analyze_route_ok {store : List TripFact} {pickup dropoff : Option Int}
    {day_type : String} {s : RouteSummary}
    (h : analyze_route store pickup dropoff day_type = .ok s) :
    ∃ pu dol, pickup = some pu ∧ dropoff = some dol ∧
      s = mkRouteSummary (routeRows store pu dol day_type) := by
  rcases pickup with _ | pu <;> rcases dropoff with _ | dol <;>
    simp only [analyze_route] at h
  · exact absurd h (by simp)
  · exact absurd h (by simp)
  · exact absurd h (by simp)
  · split at h
    · exact absurd h (by simp)
    · exact ⟨pu, dol, rfl, rfl, analyzeRouteCore_ok h⟩

theorem analyze_route_ok_of_nonempty {store : List TripFact} {pu dol : Int}
    {day_type : String} (hpu : pu ≠ 0) (hdol : dol ≠ 0)
    (hne : (routeRows store pu dol day_type).isEmpty = false) :
    analyze_route store (some pu) (some dol) day_type =
      .ok (mkRouteSummary (routeRows store pu dol day_type)) := by
  simp [analyze_route, hpu, hdol, analyzeRouteCore, hne]

/-- C6: Every successful route summary over a store of well-formed rows
has breakdown keys inside their domains (hour in `[0,23]`, day in
`[0,6]`, month in `[1,12]`), with no duplicate keys and rows ordered
ascending by the dimension's code; and with the day-type filter `all`
the breakdown volumes of each dimension sum to the scalar summary's
total trip count. -/
theorem claim_C6_route_summary_breakdowns (store : List TripFact)
    (pickup dropoff : Option Int) (day_type : String) (s : RouteSummary)
    (hvalid : ∀ f ∈ store, factWellFormed f)
    (h : analyze_route store pickup dropoff day_type = .ok s) :
    (∀ row ∈ s.hourly, row.key < 24) ∧
    (s.hourly.map BreakdownRow.key).Nodup ∧
    (s.hourly.map BreakdownRow.key).Sorted (· ≤ ·) ∧
    (∀ row ∈ s.daily, row.key < 7) ∧
    (s.daily.map BreakdownRow.key).Nodup ∧
    (s.daily.map BreakdownRow.key).Sorted (· ≤ ·) ∧
    (∀ row ∈ s.monthly, 1 ≤ row.key ∧ row.key ≤ 12) ∧
    (s.monthly.map BreakdownRow.key).Nodup ∧
    (s.monthly.map BreakdownRow.key).Sorted (· ≤ ·) ∧
    (day_type = "all" →
      (s.hourly.map BreakdownRow.volume).sum = s.total_trips ∧
      (s.daily.map BreakdownRow.volume).sum = s.total_trips ∧
      (s.monthly.map BreakdownRow.volume).sum = s.total_trips) := by
  obtain ⟨pu, dol, -, -, hs⟩ := analyze_route_ok h
  subst hs
  have hsub : ∀ f ∈ routeRows store pu dol day_type, factWellFormed f :=
    fun f hf => hvalid f (List.mem_filter.mp hf).1
  refine ⟨?_, breakdown_keys_nodup _ _ _, breakdown_keys_sorted _ _ _,
    ?_, breakdown_keys_nodup _ _ _, breakdown_keys_sorted _ _ _,
    ?_, breakdown_keys_nodup _ _ _, breakdown_keys_sorted _ _ _,
    fun _ => ⟨breakdown_volume_sum _ _ _, breakdown_volume_sum _ _ _,
      breakdown_volume_sum _ _ _⟩⟩
  · intro row hrow
    obtain ⟨f, hf, hkey⟩ := breakdown_key_mem hrow
    exact hkey ▸ (hsub f hf).1
  · intro row hrow
    obtain ⟨f, hf, hkey⟩ := breakdown_key_mem hrow
    exact hkey ▸ (hsub f hf).2.1
  · intro row hrow
    obtain ⟨f, hf, hkey⟩ := breakdown_key_mem hrow
    exact hkey ▸ ⟨(hsub f hf).2.2.1, (hsub f hf).2.2.2⟩

theorem sampleFact_routeRows :
    routeRows [sampleFact] 10 20 "all" = [sampleFact] := by
  unfold routeRows
  rw [List.filter_cons, if_pos, List.filter_nil]
  rw [decide_eq_true_eq]
  norm_num [routeFilter, dayTypeCond, sampleFact]
  exact fun _ h => absurd h (by decide)

theorem claim_C6_witness :
    (∀ row ∈ (mkRouteSummary (routeRows [sampleFact] 10 20 "all")).hourly,
      row.key < 24) ∧
    ((mkRouteSummary (routeRows [sampleFact] 10 20 "all")).hourly.map
      BreakdownRow.key).Nodup ∧
    ((mkRouteSummary (routeRows [sampleFact] 10 20 "all")).hourly.map
      BreakdownRow.key).Sorted (· ≤ ·) ∧
    (∀ row ∈ (mkRouteSummary (routeRows [sampleFact] 10 20 "all")).daily,
      row.key < 7) ∧
    ((mkRouteSummary (routeRows [sampleFact] 10 20 "all")).daily.map
      BreakdownRow.key).Nodup ∧
    ((mkRouteSummary (routeRows [sampleFact] 10 20 "all")).daily.map
      BreakdownRow.key).Sorted (· ≤ ·) ∧
    (∀ row ∈ (mkRouteSummary (routeRows [sampleFact] 10 20 "all")).monthly,
      1 ≤ row.key ∧ row.key ≤ 12) ∧
    ((mkRouteSummary (routeRows [sampleFact] 10 20 "all")).monthly.map
      BreakdownRow.key).Nodup ∧
    ((mkRouteSummary (routeRows [sampleFact] 10 20 "all")).monthly.map
      BreakdownRow.key).Sorted (· ≤ ·) ∧
    ("all" = "all" →
      ((mkRouteSummary (routeRows [sampleFact] 10 20 "all")).hourly.map
        BreakdownRow.volume).sum =
        (mkRouteSummary (routeRows [sampleFact] 10 20 "all")).total_trips ∧
      ((mkRouteSummary (routeRows [sampleFact] 10 20 "all")).daily.map
        BreakdownRow.volume).sum =
        (mkRouteSummary (routeRows [sampleFact] 10 20 "all")).total_trips ∧
      ((mkRouteSummary (routeRows [sampleFact] 10 20 "all")).monthly.map
        BreakdownRow.volume).sum =
        (mkRouteSummary (routeRows [sampleFact] 10 20 "all")).total_trips) :=
  claim_C6_route_summary_breakdowns [sampleFact] (some 10) (some 20) "all"
    (mkRouteSummary (routeRows [sampleFact] 10 20 "all"))
    (by
      intro f hf
      rw [List.mem_singleton] at hf
      subst hf
      decide)
    (analyze_route_ok_of_nonempty (by norm_num) (by norm_num)
      (by rw [sampleFact_routeRows]; rfl))
